import Mathlib

/-!
Shallow embedding of the todddo-openapi layered todo service.

The embedding follows the Rust sources:
  * `domain/src/todo.rs` — the data model (`TodoId`, `TodoData`, `Todo`,
    `TodoRepoErr`).
  * `infra/src/in_mem/todo_repo.rs` — the in-memory repository: a store
    (`Data`) holding a `u64` last-assigned-id counter and a
    `HashMap<TodoId, PersistedTodo>`.  The hash map is modelled as an
    association list in arbitrary iteration order; `u64` arithmetic is
    modelled on `Nat` with an explicit `% 2 ^ 64` (release-mode wrapping
    semantics).
  * `domain/src/services/todo_service.rs` — the service layer with its
    validation gate and error translations.
  * `api/src/controllers/todo_controller.rs` and `api/src/models/todo.rs` —
    the controller layer and the api-model conversions.

Mutating operations are modelled as explicit state transformers
`Data → result × Data`; the service's validating operations additionally
return a `Bool` recording whether the repository was invoked, mirroring
the early return of the `?` operator before the repository call.
-/

deriving instance DecidableEq for Except

/-- Modulus of Rust `u64` arithmetic. -/
def U64MOD : Nat := 2 ^ 64

/-- `domain::todo::TodoId`: a newtype over `u64` (`pub struct TodoId(pub u64)`),
totally ordered, hashable, copied by value. -/
abbrev TodoId := Nat

/-- `domain::todo::TodoData`: the creation payload. -/
structure TodoData where
  task : String
deriving DecidableEq, Repr

/-- `domain::todo::Todo`: a persisted entity. -/
structure Todo where
  id : TodoId
  task : String
deriving DecidableEq, Repr

/-- `domain::todo::TodoRepoErr`. -/
inductive TodoRepoErr where
  | NotFound (id : TodoId)
deriving DecidableEq, Repr

/-- `infra::in_mem::todo_repo::PersistedTodo`: the stored value (description
only; the id is the map key). -/
structure PersistedTodo where
  task : String
deriving DecidableEq, Repr

/-- The `HashMap<TodoId, PersistedTodo>` modelled as an association list whose
order is the (arbitrary) iteration order of the hash map. -/
abbrev Storage := List (TodoId × PersistedTodo)

/-- `HashMap::get`: first entry with the given key. -/
def storageGet : Storage → TodoId → Option PersistedTodo
  | [], _ => none
  | kv :: rest, key => if kv.1 = key then some kv.2 else storageGet rest key

/-- `HashMap::contains_key` / `Entry::Occupied` test. -/
def storageContains (s : Storage) (key : TodoId) : Bool :=
  (storageGet s key).isSome

/-- `HashMap::insert`: replace the value of an existing key in place, otherwise
add the new entry (its position in the iteration order is unspecified; we
append). -/
def storageInsert (s : Storage) (key : TodoId) (v : PersistedTodo) : Storage :=
  if storageContains s key then
    s.map (fun kv => if kv.1 = key then (key, v) else kv)
  else
    s ++ [(key, v)]

/-- `HashMap::remove_entry`: drop the entry with the given key. -/
def storageRemove (s : Storage) (key : TodoId) : Storage :=
  s.filter (fun kv => kv.1 ≠ key)

/-- `infra::in_mem::todo_repo::Data`: the store guarded by the repository's
mutex — the last-assigned-id counter (`LastId`, a `u64`) and the map. -/
structure Data where
  last_id : Nat
  storage : Storage
deriving DecidableEq, Repr

/-- `infra::in_mem::todo_repo::new()`: fresh store with `last_id = 0` and an
empty map. -/
def Data.new : Data :=
  { last_id := 0, storage := [] }

/-- `InMemTodoRepo::create`: allocate `next_id = last_id + 1` (u64, wrapping),
update the counter, insert the description under the new id, and return the
full `Todo`.  Never fails. -/
def Data.create (d : Data) (todo_data : TodoData) : Todo × Data :=
  let next_id := (d.last_id + 1) % U64MOD
  let id := next_id
  (⟨id, todo_data.task⟩,
    { last_id := next_id,
      storage := storageInsert d.storage id ⟨todo_data.task⟩ })

/-- `InMemTodoRepo::get`: rebuild the `Todo` from the requested id and the
stored description, or `NotFound` carrying the requested id.  Reads only. -/
def Data.get (d : Data) (todo_id : TodoId) : Except TodoRepoErr Todo :=
  match storageGet d.storage todo_id with
  | some persisted => .ok ⟨todo_id, persisted.task⟩
  | none => .error (.NotFound todo_id)

/-- `InMemTodoRepo::list`: map every entry to a `Todo` (in the map's iteration
order) and then sort by id (`vec.sort_by(|a, b| a.id.cmp(&b.id))`, a stable
comparison sort).  Reads only, never fails. -/
def Data.list (d : Data) : List Todo :=
  List.insertionSort (fun a b => a.id ≤ b.id)
    (d.storage.map (fun kv => ⟨kv.1, kv.2.task⟩))

/-- `InMemTodoRepo::delete`: remove the entry if present, otherwise
`NotFound(id)` with the store unchanged. -/
def Data.delete (d : Data) (todo_id : TodoId) : Except TodoRepoErr Unit × Data :=
  match storageGet d.storage todo_id with
  | some _ => (.ok (), { d with storage := storageRemove d.storage todo_id })
  | none => (.error (.NotFound todo_id), d)

/-- `InMemTodoRepo::update`: if an entry exists for `todo.id`, replace its
stored description (`Entry::Occupied` branch), otherwise `NotFound(todo.id)`
(`Entry::Vacant` branch) with the store unchanged. -/
def Data.update (d : Data) (todo : Todo) : Except TodoRepoErr Unit × Data :=
  if storageContains d.storage todo.id then
    (.ok (), { d with storage := storageInsert d.storage todo.id ⟨todo.task⟩ })
  else
    (.error (.NotFound todo.id), d)

instance : IsTotal Todo (fun a b => a.id ≤ b.id) :=
  ⟨fun a b => Nat.le_total a.id b.id⟩

instance : IsTrans Todo (fun a b => a.id ≤ b.id) :=
  ⟨fun _ _ _ h1 h2 => Nat.le_trans h1 h2⟩

/-! ### Domain service layer (`domain/src/services/todo_service.rs`) -/

/-- `domain::services::todo_service::TodoServiceLookupErr`. -/
inductive TodoServiceLookupErr where
  | NotFound (id : TodoId)
deriving DecidableEq, Repr

/-- `domain::services::todo_service::TodoServiceDataErr`. -/
inductive TodoServiceDataErr where
  | InvalidData (task : String)
deriving DecidableEq, Repr

/-- `domain::services::todo_service::TodoServiceUpdateErr`: a tagged union
distinguishing lookup failures from validation failures. -/
inductive TodoServiceUpdateErr where
  | LookupErr (e : TodoServiceLookupErr)
  | DataErr (e : TodoServiceDataErr)
deriving DecidableEq, Repr

/-- `impl From<TodoRepoErr> for TodoServiceLookupErr`. -/
def TodoServiceLookupErr.ofRepoErr : TodoRepoErr → TodoServiceLookupErr
  | .NotFound id => .NotFound id

/-- `impl From<TodoServiceDataErr> for TodoServiceUpdateErr`. -/
def TodoServiceUpdateErr.ofDataErr (err : TodoServiceDataErr) : TodoServiceUpdateErr :=
  .DataErr err

/-- `impl From<TodoRepoErr> for TodoServiceUpdateErr`: wraps the repository
error as a lookup error (`repo_err.into()` through `TodoServiceLookupErr`). -/
def TodoServiceUpdateErr.ofRepoErr (repo_err : TodoRepoErr) : TodoServiceUpdateErr :=
  .LookupErr (TodoServiceLookupErr.ofRepoErr repo_err)

/-- `TodoServiceImpl::validate_task`: invalid exactly when the task string
`is_empty()`. -/
def validate_task (task : String) : Except TodoServiceDataErr Unit :=
  if task.isEmpty then
    .error (.InvalidData task)
  else
    .ok ()

/-- `TodoServiceImpl::create` instantiated with the in-memory repository:
validate, then delegate.  The `Bool` records whether the repository was
invoked (the `?` operator returns before the `todo_repo.create` call when
validation fails). -/
def serviceCreate (d : Data) (todo_data : TodoData) :
    Except TodoServiceDataErr Todo × Data × Bool :=
  match validate_task todo_data.task with
  | .error e => (.error e, d, false)
  | .ok _ => (.ok (d.create todo_data).1, (d.create todo_data).2, true)

/-- `TodoServiceImpl::get`: pure delegation, repository errors translated by
the `From` conversion. -/
def serviceGet (d : Data) (todo_id : TodoId) : Except TodoServiceLookupErr Todo :=
  match d.get todo_id with
  | .ok todo => .ok todo
  | .error e => .error (TodoServiceLookupErr.ofRepoErr e)

/-- `TodoServiceImpl::list`: pure delegation. -/
def serviceList (d : Data) : List Todo :=
  d.list

/-- `TodoServiceImpl::delete`: pure delegation, repository errors translated
by the `From` conversion. -/
def serviceDelete (d : Data) (todo_id : TodoId) :
    Except TodoServiceLookupErr Unit × Data :=
  match d.delete todo_id with
  | (.ok _, d2) => (.ok (), d2)
  | (.error e, d2) => (.error (TodoServiceLookupErr.ofRepoErr e), d2)

/-- `TodoServiceImpl::update`: validate, then delegate; a validation failure
becomes `DataErr` (repository not invoked, recorded by the `Bool`), a
repository `NotFound` becomes `LookupErr`. -/
def serviceUpdate (d : Data) (todo : Todo) :
    Except TodoServiceUpdateErr Unit × Data × Bool :=
  match validate_task todo.task with
  | .error e => (.error (TodoServiceUpdateErr.ofDataErr e), d, false)
  | .ok _ =>
    match d.update todo with
    | (.ok _, d2) => (.ok (), d2, true)
    | (.error e, d2) => (.error (TodoServiceUpdateErr.ofRepoErr e), d2, true)

/-! ### Controller layer (`api/src/controllers/todo_controller.rs` and
`api/src/models/todo.rs`) -/

/-- `api::models::todo::TodoId` (`pub struct TodoId(pub u64)`). -/
structure ApiTodoId where
  val : TodoId
deriving DecidableEq, Repr

/-- `api::models::todo::Todo`. -/
structure ApiTodo where
  id : ApiTodoId
  task : String
deriving DecidableEq, Repr

/-- `impl From<&TodoId> for domain_models::TodoId`. -/
def ApiTodoId.toDomain (v : ApiTodoId) : TodoId :=
  v.val

/-- `impl From<domain_models::TodoId> for TodoId`. -/
def ApiTodoId.ofDomain (v : TodoId) : ApiTodoId :=
  ⟨v⟩

/-- `impl From<&Todo> for domain_models::Todo`. -/
def ApiTodo.toDomain (v : ApiTodo) : Todo :=
  ⟨v.id.toDomain, v.task⟩

/-- `impl From<domain_models::Todo> for Todo`. -/
def ApiTodo.ofDomain (v : Todo) : ApiTodo :=
  ⟨ApiTodoId.ofDomain v.id, v.task⟩

/-- `api::controllers::todo_controller::TodoControllerLookupErr`. -/
inductive TodoControllerLookupErr where
  | NotFound (id : ApiTodoId)
deriving DecidableEq, Repr

/-- `api::controllers::todo_controller::TodoControllerDataErr`. -/
inductive TodoControllerDataErr where
  | InvalidData (task : String)
deriving DecidableEq, Repr

/-- `api::controllers::todo_controller::TodoControllerUpdateErr`. -/
inductive TodoControllerUpdateErr where
  | LookupErr (e : TodoControllerLookupErr)
  | DataErr (e : TodoControllerDataErr)
deriving DecidableEq, Repr

/-- `impl From<TodoServiceLookupErr> for TodoControllerLookupErr`: preserves
the id through the api-model conversion. -/
def TodoControllerLookupErr.ofService : TodoServiceLookupErr → TodoControllerLookupErr
  | .NotFound id => .NotFound (ApiTodoId.ofDomain id)

/-- `impl From<TodoServiceDataErr> for TodoControllerDataErr`. -/
def TodoControllerDataErr.ofService : TodoServiceDataErr → TodoControllerDataErr
  | .InvalidData task => .InvalidData task

/-- `impl From<TodoServiceUpdateErr> for TodoControllerUpdateErr`: maps each
variant to the same-named variant. -/
def TodoControllerUpdateErr.ofService : TodoServiceUpdateErr → TodoControllerUpdateErr
  | .DataErr inner => .DataErr (TodoControllerDataErr.ofService inner)
  | .LookupErr inner => .LookupErr (TodoControllerLookupErr.ofService inner)

/-- `TodoControllerImpl::create` instantiated with the service over the
in-memory repository. -/
def controllerCreate (d : Data) (todo_data : TodoData) :
    Except TodoControllerDataErr ApiTodo × Data × Bool :=
  match serviceCreate d todo_data with
  | (.ok domain_todo, d2, called) => (.ok (ApiTodo.ofDomain domain_todo), d2, called)
  | (.error e, d2, called) => (.error (TodoControllerDataErr.ofService e), d2, called)

/-- `TodoControllerImpl::get`. -/
def controllerGet (d : Data) (todo_id : ApiTodoId) :
    Except TodoControllerLookupErr ApiTodo :=
  match serviceGet d todo_id.toDomain with
  | .ok domain_todo => .ok (ApiTodo.ofDomain domain_todo)
  | .error e => .error (TodoControllerLookupErr.ofService e)

/-- `TodoControllerImpl::delete`. -/
def controllerDelete (d : Data) (todo_id : ApiTodoId) :
    Except TodoControllerLookupErr Unit × Data :=
  match serviceDelete d todo_id.toDomain with
  | (.ok _, d2) => (.ok (), d2)
  | (.error e, d2) => (.error (TodoControllerLookupErr.ofService e), d2)

/-- `TodoControllerImpl::update`. -/
def controllerUpdate (d : Data) (todo : ApiTodo) :
    Except TodoControllerUpdateErr Unit × Data × Bool :=
  match serviceUpdate d todo.toDomain with
  | (.ok _, d2, called) => (.ok (), d2, called)
  | (.error e, d2, called) => (.error (TodoControllerUpdateErr.ofService e), d2, called)

/-! ### Traces of repository calls, for the id-assignment invariant -/

/-- A repository call that can appear in a create/delete trace. -/
inductive RepoOp where
  | create (td : TodoData)
  | delete (id : TodoId)
deriving DecidableEq, Repr

/-- Run a trace of repository calls, collecting the ids assigned by the
`create` calls in order. -/
def runOps (d : Data) : List RepoOp → Data × List TodoId
  | [] => (d, [])
  | .create td :: rest =>
    let step := d.create td
    let next := runOps step.2 rest
    (next.1, step.1.id :: next.2)
  | .delete id :: rest =>
    runOps (d.delete id).2 rest

/-- Ids assigned by the creates of a trace run on a fresh repository. -/
def assignedIds (ops : List RepoOp) : List TodoId :=
  (runOps Data.new ops).2

/-- Number of `create` calls in a trace. -/
def numCreates (ops : List RepoOp) : Nat :=
  ops.countP (fun op => match op with | .create _ => true | .delete _ => false)

/-- The store viewed uniformly after any repository call.  `create`, `delete`
and `update` may write through the mutex guard; `get` and `list` only read
(`let data = self.unlock().await;`, no assignment through the guard), so the
store after those calls is the store before. -/
inductive RepoCall where
  | create (td : TodoData)
  | get (id : TodoId)
  | list
  | delete (id : TodoId)
  | update (t : Todo)
deriving DecidableEq, Repr

/-- Store state after a single repository call. -/
def repoStateAfter (d : Data) : RepoCall → Data
  | .create td => (d.create td).2
  | .get _ => d
  | .list => d
  | .delete id => (d.delete id).2
  | .update t => (d.update t).2

/-! ### Helper lemmas about the storage map -/

theorem storageGet_map_replace (s : Storage) (key : TodoId) (v : PersistedTodo)
    (h : storageContains s key = true) :
    storageGet (s.map (fun kv => if kv.1 = key then (key, v) else kv)) key = some v := by
  induction s with
  | nil => simp [storageContains, storageGet] at h
  | cons kv rest ih =>
    by_cases hk : kv.1 = key
    · simp [storageGet, hk]
    · have h2 : storageContains rest key = true := by
        simpa [storageContains, storageGet, hk] using h
      simpa [storageGet, hk] using ih h2

theorem storageGet_append_self (s : Storage) (key : TodoId) (v : PersistedTodo)
    (h : storageContains s key = false) :
    storageGet (s ++ [(key, v)]) key = some v := by
  induction s with
  | nil => simp [storageGet]
  | cons kv rest ih =>
    by_cases hk : kv.1 = key
    · simp [storageContains, storageGet, hk] at h
    · have h2 : storageContains rest key = false := by
        simpa [storageContains, storageGet, hk] using h
      simpa [storageGet, hk] using ih h2

/-- Looking up a key right after `storageInsert` of that key yields the
inserted value. -/
theorem storageGet_insert_self (s : Storage) (key : TodoId) (v : PersistedTodo) :
    storageGet (storageInsert s key v) key = some v := by
  unfold storageInsert
  by_cases h : storageContains s key
  · simp only [h, if_true]
    exact storageGet_map_replace s key v h
  · simp only [h, if_false]
    exact storageGet_append_self s key v (by simpa using h)

/-- `create` followed by `get` of the returned id finds the created task. -/
theorem create_get_helper (d : Data) (td : TodoData) :
    ((d.create td).2).get ((d.create td).1).id = .ok ((d.create td).1) := by
  unfold Data.create Data.get
  simp [storageGet_insert_self]

/-! ### Helper lemmas about traces -/

/-- `delete` never touches the id counter, in either branch. -/
theorem delete_last_id (d : Data) (i : TodoId) : ((d.delete i).2).last_id = d.last_id := by
  unfold Data.delete
  cases storageGet d.storage i <;> rfl

/-- The ids assigned by the creates of a trace, run from an arbitrary store:
the k-th create (0-based) assigns `(last_id + k + 1) % 2 ^ 64`. -/
theorem runOps_ids (ops : List RepoOp) : ∀ d : Data,
    (runOps d ops).2 =
      (List.range (numCreates ops)).map (fun k => (d.last_id + (k + 1)) % U64MOD) := by
  induction ops with
  | nil => intro d; simp [runOps, numCreates]
  | cons op rest ih =>
    intro d
    cases op with
    | create td =>
      have hn : numCreates (RepoOp.create td :: rest) = numCreates rest + 1 := by
        simp [numCreates, List.countP_cons]
      rw [hn]
      show ((d.create td).1).id :: (runOps (d.create td).2 rest).2 = _
      rw [ih]
      have hlast : ((d.create td).2).last_id = (d.last_id + 1) % U64MOD := rfl
      have hid : ((d.create td).1).id = (d.last_id + 1) % U64MOD := rfl
      rw [hlast, hid, List.range_succ_eq_map, List.map_cons, List.map_map]
      congr 1
      apply List.map_congr_left
      intro k _
      show ((d.last_id + 1) % U64MOD + (k + 1)) % U64MOD
          = (d.last_id + (k + 1 + 1)) % U64MOD
      rw [Nat.mod_add_mod]
      congr 1
      omega
    | delete i =>
      have hn : numCreates (RepoOp.delete i :: rest) = numCreates rest := by
        simp [numCreates, List.countP_cons]
      rw [hn]
      show (runOps (d.delete i).2 rest).2 = _
      rw [ih, delete_last_id]

/-- Counting creates in a trace of only creates. -/
theorem numCreates_replicate (n : Nat) (td : TodoData) :
    numCreates (List.replicate n (RepoOp.create td)) = n := by
  induction n with
  | zero => rfl
  | succ k ih =>
    rw [List.replicate_succ]
    unfold numCreates at ih ⊢
    rw [List.countP_cons]
    simp [ih]

/-! ### Claim theorems -/

/-- C1 (amended): for every sequence of repository create calls, possibly
interleaved with delete calls, in which the total number of creates stays
below `2 ^ 64`, the ids assigned by create are `1, 2, ..., n` in order — in
particular strictly increasing and never repeated, the first create assigns
id 1 and the n-th create assigns id n.  (At `2 ^ 64` creates the `u64`
counter wraps and ids repeat; see the counterexample.) -/
theorem repo_create_ids_strictly_increasing (ops : List RepoOp)
    (h : numCreates ops < U64MOD) :
    assignedIds ops = List.range' 1 (numCreates ops) ∧
      (assignedIds ops).Pairwise (· < ·) ∧ (assignedIds ops).Nodup := by
  have hids : assignedIds ops
      = (List.range (numCreates ops)).map (fun k => (k + 1) % U64MOD) := by
    have h1 := runOps_ids ops Data.new
    simpa [assignedIds, Data.new] using h1
  have heq : assignedIds ops = List.range' 1 (numCreates ops) := by
    rw [hids, List.range'_eq_map_range]
    apply List.map_congr_left
    intro k hk
    have hkn : k < numCreates ops := List.mem_range.mp hk
    have hlt : k + 1 < U64MOD := by omega
    show (k + 1) % U64MOD = 1 + k
    rw [Nat.mod_eq_of_lt hlt]
    omega
  have hpair : (assignedIds ops).Pairwise (· < ·) := by
    rw [heq]
    exact List.pairwise_lt_range' 1 (numCreates ops) 1 (by simp)
  exact ⟨heq, hpair, hpair.imp (fun hab => Nat.ne_of_lt hab)⟩

/-- C1 witness: a concrete trace of three creates with an interleaved delete
assigns ids 1, 2, 3. -/
theorem repo_create_ids_strictly_increasing_witness :
    assignedIds [RepoOp.create ⟨"a"⟩, RepoOp.create ⟨"b"⟩, RepoOp.delete 1,
        RepoOp.create ⟨"c"⟩]
        = List.range' 1 (numCreates [RepoOp.create ⟨"a"⟩, RepoOp.create ⟨"b"⟩,
            RepoOp.delete 1, RepoOp.create ⟨"c"⟩]) ∧
      (assignedIds [RepoOp.create ⟨"a"⟩, RepoOp.create ⟨"b"⟩, RepoOp.delete 1,
          RepoOp.create ⟨"c"⟩]).Pairwise (· < ·) ∧
      (assignedIds [RepoOp.create ⟨"a"⟩, RepoOp.create ⟨"b"⟩, RepoOp.delete 1,
          RepoOp.create ⟨"c"⟩]).Nodup :=
  repo_create_ids_strictly_increasing
    [RepoOp.create ⟨"a"⟩, RepoOp.create ⟨"b"⟩, RepoOp.delete 1, RepoOp.create ⟨"c"⟩]
    (by decide)

/-- C1 counterexample: after `2 ^ 64 + 1` creates on a fresh repository, the
`u64` counter has wrapped (`next_id = last_id + 1` on `u64`), id 1 is assigned
twice, and the sequence of assigned ids is not strictly increasing — so the
claim does not hold for every sequence of create calls. -/
theorem repo_create_ids_wrap_cex :
    ¬ (assignedIds (List.replicate (U64MOD + 1)
        (RepoOp.create ⟨"say hello"⟩))).Pairwise (· < ·) := by
  intro hp
  have hM : 1 < U64MOD := by decide
  have hids : assignedIds (List.replicate (U64MOD + 1) (RepoOp.create ⟨"say hello"⟩))
      = (List.range (U64MOD + 1)).map (fun k => (k + 1) % U64MOD) := by
    have h1 := runOps_ids (List.replicate (U64MOD + 1) (RepoOp.create ⟨"say hello"⟩))
      Data.new
    rw [numCreates_replicate] at h1
    simpa [assignedIds, Data.new] using h1
  rw [hids, List.pairwise_map, List.pairwise_iff_getElem] at hp
  have hlen : (List.range (U64MOD + 1)).length = U64MOD + 1 := List.length_range _
  have h2 := hp 0 U64MOD (by rw [hlen]; omega) (by rw [hlen]; omega) (by omega)
  simp only [List.getElem_range] at h2
  have h3 : (0 + 1) % U64MOD < (U64MOD + 1) % U64MOD := h2
  have e1 : (0 + 1) % U64MOD = 1 := Nat.mod_eq_of_lt hM
  have e2 : (U64MOD + 1) % U64MOD = 1 := by
    rw [Nat.add_mod_left]
    exact Nat.mod_eq_of_lt hM
  rw [e1, e2] at h3
  exact Nat.lt_irrefl 1 h3

/-- C2: for every `TaskData` with a non-empty task string and every repository
state, `create(data)` followed by `get` of the returned id succeeds and
returns a `Todo` equal to the created one. -/
theorem repo_create_then_get (d : Data) (td : TodoData) (_h : td.task ≠ "") :
    ((d.create td).2).get ((d.create td).1).id = .ok ((d.create td).1) :=
  create_get_helper d td

/-- C2 witness: the round trip at a fresh repository and the task
"say hello". -/
theorem repo_create_then_get_witness :
    ((Data.new.create ⟨"say hello"⟩).2).get ((Data.new.create ⟨"say hello"⟩).1).id
      = .ok ((Data.new.create ⟨"say hello"⟩).1) :=
  repo_create_then_get Data.new ⟨"say hello"⟩ (by decide)

/-- C3: service `create(data)` fails with a `DataErr` carrying the task text
if and only if `data.task` is exactly the empty string; on failure the
repository is not called (`Bool` component `false`) and the store — in
particular its entry count — is unchanged; otherwise it returns the
repository's `Todo` and the repository's new store. -/
theorem service_create_validation_gate (d : Data) (td : TodoData) :
    (td.task = "" →
      serviceCreate d td = (.error (.InvalidData td.task), d, false)) ∧
    (td.task ≠ "" →
      serviceCreate d td = (.ok (d.create td).1, (d.create td).2, true)) := by
  constructor
  · intro h
    have he : td.task.isEmpty = true := (String.isEmpty_iff td.task).mpr h
    simp [serviceCreate, validate_task, he]
  · intro h
    have he : td.task.isEmpty = false := by
      cases hb : td.task.isEmpty
      · rfl
      · exact absurd ((String.isEmpty_iff td.task).mp hb) h
    simp [serviceCreate, validate_task, he]

/-- C3 witness: the gate at the empty string on a fresh store, and the
whitespace-only string " " passing validation. -/
theorem service_create_validation_gate_witness :
    serviceCreate Data.new ⟨""⟩ = (.error (.InvalidData ""), Data.new, false) ∧
      serviceCreate Data.new ⟨" "⟩
        = (.ok (Data.new.create ⟨" "⟩).1, (Data.new.create ⟨" "⟩).2, true) :=
  ⟨(service_create_validation_gate Data.new ⟨""⟩).1 rfl,
    (service_create_validation_gate Data.new ⟨" "⟩).2 (by decide)⟩

/-- C4: repository `update(t)` succeeds exactly when an entry for `t.id`
exists; on success a subsequent `get(t.id)` returns `{id := t.id, task :=
t.task}` (the id is preserved, the description replaced); when no entry
exists it returns `NotFound(t.id)` and leaves the store unchanged, never
creating an entry. -/
theorem repo_update_spec (d : Data) (t : Todo) :
    (storageContains d.storage t.id = true →
      (d.update t).1 = .ok () ∧
        ((d.update t).2).get t.id = .ok ⟨t.id, t.task⟩) ∧
    (storageContains d.storage t.id = false →
      d.update t = (.error (.NotFound t.id), d)) := by
  constructor
  · intro h
    refine ⟨?_, ?_⟩
    · simp [Data.update, h]
    · simp [Data.update, h, Data.get, storageGet_insert_self]
  · intro h
    simp [Data.update, h]

/-- C4 witness: update of id 1 succeeds on a store holding id 1 and the new
description is visible through `get`; update of id 7 on the same store fails
with `NotFound 7` and leaves the store unchanged. -/
theorem repo_update_spec_witness :
    ((Data.mk 1 [(1, ⟨"say hello"⟩)]).update ⟨1, "say bye"⟩).1 = .ok () ∧
      (((Data.mk 1 [(1, ⟨"say hello"⟩)]).update ⟨1, "say bye"⟩).2).get 1
        = .ok ⟨1, "say bye"⟩ ∧
      (Data.mk 1 [(1, ⟨"say hello"⟩)]).update ⟨7, "say bye"⟩
        = (.error (.NotFound 7), Data.mk 1 [(1, ⟨"say hello"⟩)]) :=
  ⟨((repo_update_spec (Data.mk 1 [(1, ⟨"say hello"⟩)]) ⟨1, "say bye"⟩).1 (by decide)).1,
    ((repo_update_spec (Data.mk 1 [(1, ⟨"say hello"⟩)]) ⟨1, "say bye"⟩).1 (by decide)).2,
    (repo_update_spec (Data.mk 1 [(1, ⟨"say hello"⟩)]) ⟨7, "say bye"⟩).2 (by decide)⟩

/-- C5: for every store state with well-formed (duplicate-free) map keys,
`list()` returns exactly one `Todo` per stored entry (a permutation of the
entries mapped to `Todo`s), sorted strictly ascending by id regardless of the
map's iteration order; the empty store yields the empty sequence.  `list`
never fails (it is a total function). -/
theorem repo_list_sorted (d : Data) (h : (d.storage.map Prod.fst).Nodup) :
    d.list.Perm (d.storage.map (fun kv => ⟨kv.1, kv.2.task⟩)) ∧
      d.list.Pairwise (fun a b => a.id < b.id) ∧
      (d.storage = [] → d.list = []) := by
  have hperm : d.list.Perm (d.storage.map (fun kv => (⟨kv.1, kv.2.task⟩ : Todo))) :=
    List.perm_insertionSort _ _
  have hsorted : d.list.Pairwise (fun a b => a.id ≤ b.id) :=
    List.sorted_insertionSort _ _
  have hids : (d.list.map Todo.id).Nodup := by
    have hp2 : List.Perm (d.list.map Todo.id)
        ((d.storage.map (fun kv => (⟨kv.1, kv.2.task⟩ : Todo))).map Todo.id) :=
      hperm.map _
    rw [List.map_map] at hp2
    have he : d.storage.map (Todo.id ∘ fun kv => (⟨kv.1, kv.2.task⟩ : Todo))
        = d.storage.map Prod.fst :=
      List.map_congr_left (fun a _ => rfl)
    rw [he] at hp2
    exact hp2.nodup_iff.mpr h
  have hne : d.list.Pairwise (fun a b => a.id ≠ b.id) := by
    have h2 := hids
    unfold List.Nodup at h2
    rwa [List.pairwise_map] at h2
  refine ⟨hperm, ?_, ?_⟩
  · exact (hsorted.and hne).imp (fun hab => Nat.lt_of_le_of_ne hab.1 hab.2)
  · intro he
    unfold Data.list
    rw [he]
    rfl

/-- C5 witness: a store whose iteration order is descending by id lists its
two tasks ascending by id. -/
theorem repo_list_sorted_witness :
    (Data.mk 2 [(2, ⟨"say bye"⟩), (1, ⟨"say hello"⟩)]).list.Perm
        ([(2, (⟨"say bye"⟩ : PersistedTodo)), (1, ⟨"say hello"⟩)].map
          (fun kv => ⟨kv.1, kv.2.task⟩)) ∧
      (Data.mk 2 [(2, ⟨"say bye"⟩), (1, ⟨"say hello"⟩)]).list.Pairwise
        (fun a b => a.id < b.id) ∧
      ([(2, (⟨"say bye"⟩ : PersistedTodo)), (1, ⟨"say hello"⟩)] = ([] : Storage) →
        (Data.mk 2 [(2, ⟨"say bye"⟩), (1, ⟨"say hello"⟩)]).list = []) :=
  repo_list_sorted (Data.mk 2 [(2, ⟨"say bye"⟩), (1, ⟨"say hello"⟩)]) (by decide)

/-- C6: for every id absent from the store, `get`, `delete`, and `update`
(with a non-empty task for `update`) each fail with a `NotFound` error
carrying exactly that id: at the repository, at the service (wrapped as
`TodoServiceLookupErr`, and for `update` as
`TodoServiceUpdateErr.LookupErr`), and at the controller (wrapped in the
controller error types), with the id preserved unchanged by every layer
translation. -/
theorem notfound_propagates_all_layers (d : Data) (i : TodoId) (task : String)
    (hid : storageGet d.storage i = none) (ht : task ≠ "") :
    d.get i = .error (.NotFound i) ∧
      d.delete i = (.error (.NotFound i), d) ∧
      d.update ⟨i, task⟩ = (.error (.NotFound i), d) ∧
      serviceGet d i = .error (.NotFound i) ∧
      serviceDelete d i = (.error (.NotFound i), d) ∧
      serviceUpdate d ⟨i, task⟩ = (.error (.LookupErr (.NotFound i)), d, true) ∧
      controllerGet d ⟨i⟩ = .error (.NotFound ⟨i⟩) ∧
      controllerDelete d ⟨i⟩ = (.error (.NotFound ⟨i⟩), d) ∧
      controllerUpdate d ⟨⟨i⟩, task⟩ = (.error (.LookupErr (.NotFound ⟨i⟩)), d, true) := by
  have hc : storageContains d.storage i = false := by
    simp [storageContains, hid]
  have hvt : validate_task task = .ok () := by
    have he : task.isEmpty = false := by
      cases hb : task.isEmpty
      · rfl
      · exact absurd ((String.isEmpty_iff task).mp hb) ht
    simp [validate_task, he]
  have hget : d.get i = .error (.NotFound i) := by simp [Data.get, hid]
  have hdel : d.delete i = (.error (.NotFound i), d) := by simp [Data.delete, hid]
  have hupd : d.update ⟨i, task⟩ = (.error (.NotFound i), d) := by
    simp [Data.update, hc]
  refine ⟨hget, hdel, hupd, ?_, ?_, ?_, ?_, ?_, ?_⟩
  · simp [serviceGet, hget, TodoServiceLookupErr.ofRepoErr]
  · simp [serviceDelete, hdel, TodoServiceLookupErr.ofRepoErr]
  · simp [serviceUpdate, hvt, hupd, TodoServiceUpdateErr.ofRepoErr,
      TodoServiceLookupErr.ofRepoErr]
  · simp [controllerGet, serviceGet, hget, ApiTodoId.toDomain,
      TodoServiceLookupErr.ofRepoErr, TodoControllerLookupErr.ofService,
      ApiTodoId.ofDomain]
  · simp [controllerDelete, serviceDelete, hdel, ApiTodoId.toDomain,
      TodoServiceLookupErr.ofRepoErr, TodoControllerLookupErr.ofService,
      ApiTodoId.ofDomain]
  · simp [controllerUpdate, serviceUpdate, hvt, ApiTodo.toDomain,
      ApiTodoId.toDomain, hupd, TodoServiceUpdateErr.ofRepoErr,
      TodoServiceLookupErr.ofRepoErr, TodoControllerUpdateErr.ofService,
      TodoControllerLookupErr.ofService, ApiTodoId.ofDomain]

/-- C6 witness: id 999 on a fresh store fails with `NotFound 999` at every
layer. -/
theorem notfound_propagates_all_layers_witness :
    Data.new.get 999 = .error (.NotFound 999) ∧
      Data.new.delete 999 = (.error (.NotFound 999), Data.new) ∧
      Data.new.update ⟨999, "hello"⟩ = (.error (.NotFound 999), Data.new) ∧
      serviceGet Data.new 999 = .error (.NotFound 999) ∧
      serviceDelete Data.new 999 = (.error (.NotFound 999), Data.new) ∧
      serviceUpdate Data.new ⟨999, "hello"⟩
        = (.error (.LookupErr (.NotFound 999)), Data.new, true) ∧
      controllerGet Data.new ⟨999⟩ = .error (.NotFound ⟨999⟩) ∧
      controllerDelete Data.new ⟨999⟩ = (.error (.NotFound ⟨999⟩), Data.new) ∧
      controllerUpdate Data.new ⟨⟨999⟩, "hello"⟩
        = (.error (.LookupErr (.NotFound ⟨999⟩)), Data.new, true) :=
  notfound_propagates_all_layers Data.new 999 "hello" rfl (by decide)

/-- C7: a validation failure and a lookup failure of `update` are distinct
variants of a tagged union at the service layer and at the controller layer,
and the controller translation maps `DataErr` to `DataErr` and `LookupErr`
to `LookupErr`, never crossing branches. -/
theorem update_error_variants_distinct (d : Data) (t : Todo) :
    (t.task = "" →
      (serviceUpdate d t).1 = .error (.DataErr (.InvalidData t.task)) ∧
      (controllerUpdate d (ApiTodo.ofDomain t)).1
        = .error (.DataErr (.InvalidData t.task))) ∧
    (t.task ≠ "" → storageGet d.storage t.id = none →
      (serviceUpdate d t).1 = .error (.LookupErr (.NotFound t.id)) ∧
      (controllerUpdate d (ApiTodo.ofDomain t)).1
        = .error (.LookupErr (.NotFound ⟨t.id⟩))) ∧
    (∀ de : TodoServiceDataErr,
      TodoControllerUpdateErr.ofService (.DataErr de)
        = .DataErr (TodoControllerDataErr.ofService de)) ∧
    (∀ le : TodoServiceLookupErr,
      TodoControllerUpdateErr.ofService (.LookupErr le)
        = .LookupErr (TodoControllerLookupErr.ofService le)) := by
  have hconv : (ApiTodo.ofDomain t).toDomain = t := rfl
  refine ⟨?_, ?_, fun de => rfl, fun le => rfl⟩
  · intro h
    have he : t.task.isEmpty = true := (String.isEmpty_iff t.task).mpr h
    constructor
    · simp [serviceUpdate, validate_task, he, TodoServiceUpdateErr.ofDataErr]
    · simp [controllerUpdate, hconv, serviceUpdate, validate_task, he,
        TodoServiceUpdateErr.ofDataErr, TodoControllerUpdateErr.ofService,
        TodoControllerDataErr.ofService]
  · intro h hid
    have he : t.task.isEmpty = false := by
      cases hb : t.task.isEmpty
      · rfl
      · exact absurd ((String.isEmpty_iff t.task).mp hb) h
    have hc : storageContains d.storage t.id = false := by
      simp [storageContains, hid]
    constructor
    · simp [serviceUpdate, validate_task, he, Data.update, hc,
        TodoServiceUpdateErr.ofRepoErr, TodoServiceLookupErr.ofRepoErr]
    · simp [controllerUpdate, hconv, serviceUpdate, validate_task, he,
        Data.update, hc, TodoServiceUpdateErr.ofRepoErr,
        TodoServiceLookupErr.ofRepoErr, TodoControllerUpdateErr.ofService,
        TodoControllerLookupErr.ofService, ApiTodoId.ofDomain]

/-- C7 witness: the empty task at id 1 yields the `DataErr` branch, a missing
id with a non-empty task yields the `LookupErr` branch, at both layers. -/
theorem update_error_variants_distinct_witness :
    ((serviceUpdate Data.new ⟨1, ""⟩).1 = .error (.DataErr (.InvalidData "")) ∧
      (controllerUpdate Data.new (ApiTodo.ofDomain ⟨1, ""⟩)).1
        = .error (.DataErr (.InvalidData ""))) ∧
      ((serviceUpdate Data.new ⟨1, "hello"⟩).1
          = .error (.LookupErr (.NotFound 1)) ∧
        (controllerUpdate Data.new (ApiTodo.ofDomain ⟨1, "hello"⟩)).1
          = .error (.LookupErr (.NotFound ⟨1⟩))) :=
  ⟨(update_error_variants_distinct Data.new ⟨1, ""⟩).1 rfl,
    (update_error_variants_distinct Data.new ⟨1, "hello"⟩).2.1 (by decide) rfl⟩

/-- C9: every repository operation that returns an error leaves the store
(both the `last_id` counter and the map) exactly unchanged, and `get` and
`list` leave the store unchanged in every case (they only read through the
mutex guard). -/
theorem repo_error_leaves_store_unchanged (d : Data) (i : TodoId) (t : Todo) :
    (∀ e, (d.delete i).1 = .error e → (d.delete i).2 = d) ∧
      (∀ e, (d.update t).1 = .error e → (d.update t).2 = d) ∧
      repoStateAfter d (RepoCall.get i) = d ∧
      repoStateAfter d RepoCall.list = d := by
  refine ⟨?_, ?_, rfl, rfl⟩
  · intro e he
    cases hg : storageGet d.storage i
    · simp [Data.delete, hg]
    · simp [Data.delete, hg] at he
  · intro e he
    cases hc : storageContains d.storage t.id
    · simp [Data.update, hc]
    · simp [Data.update, hc] at he

/-- C9 witness: `delete 7` and `update {id := 7}` error on a fresh store and
leave it unchanged; `get` and `list` never change it. -/
theorem repo_error_leaves_store_unchanged_witness :
    (Data.new.delete 7).2 = Data.new ∧
      (Data.new.update ⟨7, "hello"⟩).2 = Data.new ∧
      repoStateAfter Data.new (RepoCall.get 7) = Data.new ∧
      repoStateAfter Data.new RepoCall.list = Data.new :=
  ⟨(repo_error_leaves_store_unchanged Data.new 7 ⟨7, "hello"⟩).1
      (.NotFound 7) rfl,
    (repo_error_leaves_store_unchanged Data.new 7 ⟨7, "hello"⟩).2.1
      (.NotFound 7) rfl,
    (repo_error_leaves_store_unchanged Data.new 7 ⟨7, "hello"⟩).2.2.1,
    (repo_error_leaves_store_unchanged Data.new 7 ⟨7, "hello"⟩).2.2.2⟩

/-- C10: the repository performs no content validation: `create` succeeds for
every string (including the empty string) and stores it as the description,
`update` on an existing id succeeds with an empty description, while the
empty-string rejection lives in the service layer. -/
theorem repo_no_content_validation (d : Data) (s : String) (i : TodoId)
    (h : storageContains d.storage i = true) :
    ((d.create ⟨s⟩).1).task = s ∧
      ((d.create ⟨s⟩).2).get ((d.create ⟨s⟩).1).id = .ok ((d.create ⟨s⟩).1) ∧
      (d.update ⟨i, ""⟩).1 = .ok () ∧
      (serviceCreate d ⟨""⟩).1 = .error (.InvalidData "") := by
  refine ⟨rfl, create_get_helper d ⟨s⟩, ?_, rfl⟩
  simp [Data.update, h]

/-- C10 witness: the empty string is created and stored by the repository,
and an update to the empty description succeeds on the stored id 1, while
the service rejects the empty creation payload. -/
theorem repo_no_content_validation_witness :
    (((Data.mk 1 [(1, ⟨"say hello"⟩)]).create ⟨""⟩).1).task = "" ∧
      (((Data.mk 1 [(1, ⟨"say hello"⟩)]).create ⟨""⟩).2).get
          (((Data.mk 1 [(1, ⟨"say hello"⟩)]).create ⟨""⟩).1).id
        = .ok (((Data.mk 1 [(1, ⟨"say hello"⟩)]).create ⟨""⟩).1) ∧
      ((Data.mk 1 [(1, ⟨"say hello"⟩)]).update ⟨1, ""⟩).1 = .ok () ∧
      (serviceCreate (Data.mk 1 [(1, ⟨"say hello"⟩)]) ⟨""⟩).1
        = .error (.InvalidData "") :=
  repo_no_content_validation (Data.mk 1 [(1, ⟨"say hello"⟩)]) "" 1 (by decide)

